import Mathlib

/-!
Verification of the identity & tenancy provisioning core of the
hyperswitch repository (crates/router/src/types/domain/user.rs and
crates/api_models/src/enums.rs), via a shallow embedding in Lean 4.

Store calls, the password-hashing capability and the runtime environment
are modelled as explicit parameters; each embedded function additionally
returns the trace of store calls it made, so that claims about
compensation and dual-writes can be stated.
-/

namespace Spec2Proof

/-- The platform's canonical merchant-id type (`common_utils::id_type`),
abstracted by how the id was produced: converted from a user-supplied name
(`TryFrom<MerchantId>`), generated from the current unix timestamp
(`new_from_unix_timestamp`), or the reserved internal-user sentinel
(`get_internal_user_merchant_id`). -/
inductive MerchantIdT where
  | fromName (s : List Char)
  | fromTimestamp (t : Nat)
  | internalSentinel (s : List Char)
  deriving Repr, DecidableEq

/-- The error kinds of `UserErrors` (crates/router, `core::errors::UserErrors`)
that the embedded functions can produce. In the source
`MerchantAccountCreationError` carries a message with the merchant id
formatted into it; the model carries the id itself. -/
inductive UserErr where
  | userExists
  | internalServerError
  | nameParsingError
  | emailParsingError
  | invalidEmailError
  | passwordParsingError
  | companyNameParsingError
  | merchantIdParsingError
  | roleNameParsingError
  | invalidCredentials
  | merchantAccountCreationError (merchant_id : MerchantIdT)
  | duplicateOrganizationId
  deriving Repr, DecidableEq

/-- A storage-layer error, exposing the two predicates the source consults:
`is_db_unique_violation` and `is_db_not_found`. -/
structure DbError where
  isUniqueViolation : Bool
  isNotFound : Bool
  deriving Repr, DecidableEq

/-- Model of a Rust `char` as the record of the classification predicates the
password validator consumes (`is_uppercase`, `is_lowercase`, `is_numeric`,
`is_alphanumeric`, `is_whitespace`). -/
structure RChar where
  isUppercase : Bool
  isLowercase : Bool
  isNumeric : Bool
  isAlphanumeric : Bool
  isWhitespace : Bool
  deriving Repr, DecidableEq

/-- A password string, modelled as its list of grapheme clusters, each cluster
a nonempty-in-practice list of `RChar`s. `graphemes(true).count()` is the
length of the outer list; `chars()` is the flattening. -/
def PasswordStr := List (List RChar)

/-- `chars()` of a password string: the concatenation of its grapheme
clusters. -/
def PasswordStr.chars (p : PasswordStr) : List RChar := p.flatten

/-- `graphemes(true).count()` of a password string. -/
def PasswordStr.graphemeCount (p : PasswordStr) : Nat := p.length

/-- Modelled from the spec: `consts::user::MIN_PASSWORD_LENGTH`
(the constant lives in crates/router/src/consts, not under src/). -/
def MIN_PASSWORD_LENGTH : Nat := 8

/-- Modelled from the spec: `consts::user::MAX_PASSWORD_LENGTH`
(the constant lives in crates/router/src/consts, not under src/). -/
def MAX_PASSWORD_LENGTH : Nat := 70

/-- `UserPassword::new` (user.rs lines 168-198): scans the characters for the
five classification flags, requires upper, lower, numeric and special and no
whitespace, and bounds the grapheme count by the min/max constants. -/
def UserPassword.new (password : PasswordStr) : Except UserErr PasswordStr :=
  let cs := password.chars
  let has_upper_case := cs.any (·.isUppercase)
  let has_lower_case := cs.any (·.isLowercase)
  let has_numeric_value := cs.any (·.isNumeric)
  let has_special_character := cs.any (fun c => !c.isAlphanumeric)
  let has_whitespace := cs.any (·.isWhitespace)
  let is_password_format_valid := has_upper_case && has_lower_case
    && has_numeric_value && has_special_character && !has_whitespace
  let is_too_long := password.graphemeCount > MAX_PASSWORD_LENGTH
  let is_too_short := password.graphemeCount < MIN_PASSWORD_LENGTH
  if is_too_short || is_too_long || !is_password_format_valid then
    .error .passwordParsingError
  else
    .ok password

/-! ## String model

Rust strings are modelled as lists of characters (`List Char`); Unicode
grapheme clusters are identified with scalar values for the types below,
whose claims only use grapheme counts of ASCII data. The Rust string
operations the source uses are given explicit definitions here. -/

/-- `str s` is the character list of a Lean string literal, used to write
concrete inputs. -/
def str (s : String) : List Char := s.data

/-- Rust `str::trim`: drop leading and trailing whitespace characters. -/
def trimChars (s : List Char) : List Char :=
  (((s.dropWhile Char.isWhitespace).reverse).dropWhile Char.isWhitespace).reverse

/-- Rust `str::to_lowercase`, restricted to the ASCII case mapping. -/
def lowerChars (s : List Char) : List Char := s.map Char.toLower

/-- Rust `str::split_once(sep)`: the parts strictly before and strictly after
the first occurrence of `sep`, or `none` when `sep` does not occur. -/
def splitOnce (sep : Char) : List Char → Option (List Char × List Char)
  | [] => none
  | c :: cs =>
    if c = sep then some ([], cs)
    else (splitOnce sep cs).map (fun p => (c :: p.1, p.2))

/-- Rust `char::is_ascii_whitespace`. -/
def isAsciiWhitespace (c : Char) : Bool :=
  c = ' ' || c = '\t' || c = '\n' || c = '\x0c' || c = '\r'

/-! ## Role name (C8) -/

/-- Modelled from the spec: `consts::user_role::MAX_ROLE_NAME_LENGTH`
(the constant lives in crates/router/src/consts, not under src/). -/
def MAX_ROLE_NAME_LENGTH : Nat := 64

/-- `RoleName::new` (user.rs lines 1124-1133): rejects names that trim to
empty, exceed the maximum grapheme count, or contain a space anywhere; on
success stores the lowercased (untrimmed) name. -/
def RoleName.new (name : List Char) : Except UserErr (List Char) :=
  let is_empty_or_whitespace := (trimChars name).isEmpty
  let is_too_long := name.length > MAX_ROLE_NAME_LENGTH
  if is_empty_or_whitespace || is_too_long || name.contains ' ' then
    .error .roleNameParsingError
  else
    .ok (lowerChars name)

/-- Following the claim wording for C8 (not the source): a name contains an
interior space when a space character has some non-space character before it
and some non-space character after it; equivalently, the trimmed name still
contains a space. -/
def hasInteriorSpace (name : List Char) : Bool := (trimChars name).contains ' '

/-- Following the claim wording for C8: two strings are casing variants of
each other when they agree after lowercasing. -/
def casingVariant (s t : List Char) : Prop := lowerChars s = lowerChars t

/-! ## Email (C7)

`pii::Email::from_str` and `validator::ValidateEmail` live outside src/, so
the parser and the syntax validator are passed in as boolean capabilities;
the blocked-domain set (loaded once from a bundled list by the `BLOCKED_EMAIL`
lazy static, user.rs lines 89-96) is passed in as a list of domains. -/

/-- `UserEmail::new` (user.rs lines 99-119): parse the string (failure is a
parsing error), check plausible syntax (failure is a parsing error), split at
the first `@` (absence is a parsing error), reject with an invalid-email
error when the domain is blocked, and otherwise accept. -/
def UserEmail.new (parse : List Char → Bool) (validateEmail : List Char → Bool)
    (blocked : List (List Char)) (email : List Char) : Except UserErr (List Char) :=
  if !parse email then
    .error .emailParsingError
  else if validateEmail email then
    match splitOnce '@' email with
    | none => .error .emailParsingError
    | some (_username, domain) =>
      if blocked.contains domain then
        .error .invalidEmailError
      else
        .ok email
  else
    .error .emailParsingError

/-! ## Company name, merchant id and environment-based resolution (C4) -/

/-- Modelled from the spec: `consts::user::MAX_COMPANY_NAME_LENGTH`
(the constant lives in crates/router/src/consts, not under src/). -/
def MAX_COMPANY_NAME_LENGTH : Nat := 64

/-- `UserCompanyName::new` (user.rs lines 217-231): trim, reject empty or
over-long names and any character that is not alphanumeric, ASCII whitespace
or underscore; stores the trimmed name. -/
def UserCompanyName.new (company_name : List Char) : Except UserErr (List Char) :=
  let company_name := trimChars company_name
  let is_empty_or_whitespace := company_name.isEmpty
  let is_too_long := company_name.length > MAX_COMPANY_NAME_LENGTH
  let is_all_valid_characters :=
    company_name.all (fun x => x.isAlphanum || isAsciiWhitespace x || x = '_')
  if is_empty_or_whitespace || is_too_long || !is_all_valid_characters then
    .error .companyNameParsingError
  else
    .ok company_name

/-- `MerchantId::new` (user.rs lines 324-334): trim, lowercase, replace
spaces with underscores, then reject if empty or containing a character that
is not alphanumeric or underscore. -/
def MerchantId.new (merchant_id : List Char) : Except UserErr (List Char) :=
  let merchant_id := (lowerChars (trimChars merchant_id)).map
    (fun c => if c = ' ' then '_' else c)
  let is_empty_or_whitespace := merchant_id.isEmpty
  let is_all_valid_characters := merchant_id.all (fun x => x.isAlphanum || x = '_')
  if is_empty_or_whitespace || !is_all_valid_characters then
    .error .merchantIdParsingError
  else
    .ok merchant_id

/-- Whether a canonical merchant id is time-derived. -/
def MerchantIdT.isTimeDerived : MerchantIdT → Bool
  | .fromTimestamp _ => true
  | _ => false

/-- `get_string_repr` of a canonical merchant id. A timestamp-generated id
renders as the timestamp digits; a name-derived or sentinel id renders as its
characters. -/
def MerchantIdT.stringRepr : MerchantIdT → List Char
  | .fromName s => s
  | .fromTimestamp t => Nat.toDigits 10 t
  | .internalSentinel s => s

/-- Modelled from the spec: the `TryFrom<MerchantId> for id_type::MerchantId`
conversion (user.rs lines 341-348) delegates to the canonical merchant-id
type in common_utils, which is not under src/; per the spec the normalized
name is "converted to the platform's canonical merchant-id type, failing if
that conversion rejects the value". Modelled as accepting nonempty
alphanumeric-or-underscore names of bounded length. -/
def canonicalMerchantId (s : List Char) : Except UserErr MerchantIdT :=
  if s.isEmpty || s.length > 64 || !(s.all (fun c => c.isAlphanum || c = '_')) then
    .error .merchantIdParsingError
  else
    .ok (.fromName s)

/-- The runtime environment (`router_env::env::Env`). -/
inductive RuntimeEnv where
  | development
  | sandbox
  | production
  deriving Repr, DecidableEq

/-- A new organization row (`diesel_org::OrganizationNew`): an id (generated
by `api_org::OrganizationNew::new` or carried over from a token) and an
optional name. -/
structure NewUserOrganization where
  org_id : List Char
  org_name : Option (List Char)
  deriving Repr, DecidableEq

/-- `NewUserMerchant` (user.rs lines 351-355). -/
structure NewUserMerchant where
  merchant_id : MerchantIdT
  company_name : Option (List Char)
  new_organization : NewUserOrganization
  deriving Repr, DecidableEq

/-- `user_api::SignUpWithMerchantIdRequest`, restricted to the field the
`NewUserMerchant` conversion reads. -/
structure SignUpWithMerchantIdRequest where
  company_name : List Char
  deriving Repr, DecidableEq

/-- `user_api::UserMerchantCreate`, restricted to the field the
`NewUserMerchant` conversion reads. -/
structure UserMerchantCreate where
  company_name : List Char
  deriving Repr, DecidableEq

/-- `TryFrom<user_api::SignUpWithMerchantIdRequest> for NewUserOrganization`
(user.rs lines 262-271): validates the company name and builds an
organization row with a freshly generated id (`genOrgId` stands for the id
generated by `api_org::OrganizationNew::new`). -/
def NewUserOrganization.fromSignUpWithMerchantId (genOrgId : List Char)
    (value : SignUpWithMerchantIdRequest) : Except UserErr NewUserOrganization := do
  let name ← UserCompanyName.new value.company_name
  .ok { org_id := genOrgId, org_name := some name }

/-- `TryFrom<user_api::SignUpWithMerchantIdRequest> for NewUserMerchant`
(user.rs lines 496-509): the merchant id is always derived from the
normalized company name — this conversion never consults the runtime
environment. -/
def NewUserMerchant.fromSignUpWithMerchantId (genOrgId : List Char)
    (value : SignUpWithMerchantIdRequest) : Except UserErr NewUserMerchant := do
  let company_name ← UserCompanyName.new value.company_name
  let merchant_id ← MerchantId.new value.company_name
  let new_organization ← NewUserOrganization.fromSignUpWithMerchantId genOrgId value
  let merchant_id ← canonicalMerchantId merchant_id
  .ok { company_name := some company_name, merchant_id, new_organization }

/-- `From<UserMerchantCreateRequestWithToken> for NewUserOrganization`
(user.rs lines 302-309): reuses the token's organization id and the raw
(unvalidated) company name. -/
def NewUserOrganization.fromUserMerchantCreate (tokenOrgId : List Char)
    (value : UserMerchantCreate) : NewUserOrganization :=
  { org_id := tokenOrgId, org_name := some value.company_name }

/-- `TryFrom<UserMerchantCreateRequestWithToken> for NewUserMerchant`
(user.rs lines 546-561): in a production runtime the merchant id is derived
from the normalized company name; in any other runtime it is generated from
the current unix timestamp (`now`). -/
def NewUserMerchant.fromUserMerchantCreate (env : RuntimeEnv) (now : Nat)
    (tokenOrgId : List Char) (value : UserMerchantCreate) :
    Except UserErr NewUserMerchant := do
  let merchant_id ←
    if env = .production then do
      let m ← MerchantId.new value.company_name
      canonicalMerchantId m
    else
      .ok (.fromTimestamp now)
  let company_name ← UserCompanyName.new value.company_name
  .ok { merchant_id, company_name := some company_name,
        new_organization := NewUserOrganization.fromUserMerchantCreate tokenOrgId value }

/-! ## User rows (C10, C6) -/

/-- `diesel_models::enums::TotpStatus`. -/
inductive TotpStatus where
  | set
  | inProgress
  | notSet
  deriving Repr, DecidableEq

/-- A user row (`storage_user::UserNew` / `storage_user::User`): the fields
written by `TryFrom<NewUser> for storage_user::UserNew` and read by
`UserFromStorage`. -/
structure UserRow where
  user_id : List Char
  name : List Char
  email : List Char
  password : Option (List Char)
  is_verified : Bool
  created_at : Option Nat
  last_modified_at : Option Nat
  preferred_merchant_id : Option MerchantIdT
  totp_status : TotpStatus
  totp_secret : Option (List Char)
  totp_recovery_codes : Option (List (List Char))
  last_password_modified_at : Option Nat
  deriving Repr, DecidableEq

/-- `NewUser` (user.rs lines 563-570). The name, email and password have
already passed their value-object validation; the password is the plaintext
secret. -/
structure NewUser where
  user_id : List Char
  name : List Char
  email : List Char
  password : Option (List Char)
  new_merchant : NewUserMerchant
  deriving Repr, DecidableEq

/-- `TryFrom<NewUser> for storage_user::UserNew` (user.rs lines 687-713):
hash the password when present through the password-hashing capability
(`hash`, standing for `password::generate_password_hash`), stamp creation
and modification times with `now`, and fix the verification/TOTP/preference
fields to their initial values. -/
def NewUser.tryIntoUserNew (hash : List Char → Except UserErr (List Char))
    (now : Nat) (value : NewUser) : Except UserErr UserRow := do
  let hashed_password ← match value.password with
    | some password => (hash password).map some
    | none => .ok none
  .ok {
    user_id := value.user_id
    name := value.name
    email := value.email
    password := hashed_password
    is_verified := false
    created_at := some now
    last_modified_at := some now
    preferred_merchant_id := none
    totp_status := .notSet
    totp_secret := none
    totp_recovery_codes := none
    last_password_modified_at := if value.password.isSome then some now else none
  }

/-- `UserFromStorage::compare_password` (user.rs lines 851-861): with a
stored hash, succeed exactly when the verification capability (`verify`,
standing for `password::is_correct_password`) answers true, fail with
invalid credentials when it answers false, and propagate its errors; with no
stored hash, always fail with invalid credentials. -/
def UserFromStorage.comparePassword
    (verify : List Char → List Char → Except UserErr Bool)
    (user : UserRow) (candidate : List Char) : Except UserErr Unit :=
  match user.password with
  | some password =>
    match verify candidate password with
    | .ok true => .ok ()
    | .ok false => .error .invalidCredentials
    | .error e => .error e
  | none => .error .invalidCredentials

/-! ## Provisioning orchestrator (C1)

The store and the merchant-management capability are modelled by an
environment fixing the outcome of each call; every embedded operation also
returns the list of store/capability calls it performed, in order. -/

/-- The v1 `admin_api::MerchantAccountCreate` payload built by
`create_merchant_account_request` (user.rs lines 419-442), restricted to the
fields the source fills from `self`; every other field is the constant
`None` in the source. -/
structure MerchantAccountCreate where
  merchant_id : MerchantIdT
  merchant_name : Option (List Char)
  organization_id : Option (List Char)
  deriving Repr, DecidableEq

/-- One store or capability call made by the orchestrator. -/
inductive ProvisionCall where
  | findUserByEmail
  | getMerchantKeyStore (id : MerchantIdT)
  | createMerchant (req : MerchantAccountCreate)
  | insertUser (row : UserRow)
  | deleteMerchant (id : MerchantIdT)
  deriving Repr, DecidableEq

/-- Whether a call is the compensating merchant delete. -/
def ProvisionCall.isDelete : ProvisionCall → Bool
  | .deleteMerchant _ => true
  | _ => false

/-- Outcomes of the store and merchant-management calls the orchestrator
makes: whether `find_user_by_email` and `get_merchant_key_store_by_merchant_id`
find a row, and the results of `admin::create_merchant_account`,
`db.insert_user` and `admin::merchant_account_delete`. -/
structure ProvisionEnv where
  userByEmailFound : Bool
  merchantKeyStoreFound : Bool
  createMerchantAccount : Except Unit Unit
  insertUser : Except DbError UserRow
  deleteMerchant : Except Unit Unit

/-- `NewUser::check_if_already_exists_in_db` (user.rs lines 610-620): fail
with `UserExists` when the email lookup finds a user. -/
def NewUser.checkIfAlreadyExistsInDb (_user : NewUser) (env : ProvisionEnv) :
    Except UserErr Unit × List ProvisionCall :=
  if env.userByEmailFound then
    (.error .userExists, [.findUserByEmail])
  else
    (.ok (), [.findUserByEmail])

/-- `NewUserMerchant::check_if_already_exists_in_db` (user.rs lines 379-397):
fail with a merchant-account-creation error when a merchant key store is
already found under the target merchant id. The source formats the merchant
id into the error message; the model carries the id itself. -/
def NewUserMerchant.checkIfAlreadyExistsInDb (m : NewUserMerchant)
    (env : ProvisionEnv) : Except UserErr Unit × List ProvisionCall :=
  if env.merchantKeyStoreFound then
    (.error (.merchantAccountCreationError m.merchant_id),
      [.getMerchantKeyStore m.merchant_id])
  else
    (.ok (), [.getMerchantKeyStore m.merchant_id])

/-- `create_merchant_account_request` under the v1 feature (user.rs lines
419-442): always succeeds, copying the merchant id, optional company name
and organization id. -/
def NewUserMerchant.createMerchantAccountRequest (m : NewUserMerchant) :
    Except UserErr MerchantAccountCreate :=
  .ok { merchant_id := m.merchant_id, merchant_name := m.company_name,
        organization_id := some m.new_organization.org_id }

/-- `NewUserMerchant::create_new_merchant_and_insert_in_db` (user.rs lines
444-463): existence check, request construction, then the merchant-creation
capability; its failure is wrapped as an internal error. -/
def NewUserMerchant.createNewMerchantAndInsertInDb (m : NewUserMerchant)
    (env : ProvisionEnv) : Except UserErr Unit × List ProvisionCall :=
  match m.checkIfAlreadyExistsInDb env with
  | (.error e, tr) => (.error e, tr)
  | (.ok (), tr) =>
    match m.createMerchantAccountRequest with
    | .error e => (.error e, tr)
    | .ok req =>
      match env.createMerchantAccount with
      | .ok () => (.ok (), tr ++ [.createMerchant req])
      | .error _ => (.error .internalServerError, tr ++ [.createMerchant req])

/-- `NewUser::insert_user_in_db` (user.rs lines 593-608): convert to the
storage row (hashing the password), insert, and reclassify a store failure
as `UserExists` on a uniqueness violation and as an internal error
otherwise. -/
def NewUser.insertUserInDb (u : NewUser)
    (hash : List Char → Except UserErr (List Char)) (now : Nat)
    (env : ProvisionEnv) : Except UserErr UserRow × List ProvisionCall :=
  match NewUser.tryIntoUserNew hash now u with
  | .error e => (.error e, [])
  | .ok row =>
    match env.insertUser with
    | .ok user => (.ok user, [.insertUser row])
    | .error e =>
      (if e.isUniqueViolation then .error .userExists else .error .internalServerError,
        [.insertUser row])

/-- `NewUser::insert_user_and_merchant_in_db` (user.rs lines 622-637): user
existence check, merchant creation, user insertion; when the user insertion
fails after the merchant was created, a merchant delete is attempted whose
outcome is discarded (`let _ = ...`), and the user-insertion error is
returned. -/
def NewUser.insertUserAndMerchantInDb (u : NewUser)
    (hash : List Char → Except UserErr (List Char)) (now : Nat)
    (env : ProvisionEnv) : Except UserErr UserRow × List ProvisionCall :=
  match u.checkIfAlreadyExistsInDb env with
  | (.error e, tr) => (.error e, tr)
  | (.ok (), tr0) =>
    let merchant_id := u.new_merchant.merchant_id
    match u.new_merchant.createNewMerchantAndInsertInDb env with
    | (.error e, tr1) => (.error e, tr0 ++ tr1)
    | (.ok (), tr1) =>
      match u.insertUserInDb hash now env with
      | (.ok user, tr2) => (.ok user, tr0 ++ tr1 ++ tr2)
      | (.error e, tr2) =>
        (.error e, tr0 ++ tr1 ++ tr2 ++ [.deleteMerchant merchant_id])

/-! ## Role-level state machine and dual-write (C2) -/

/-- `diesel_models::enums::UserStatus`. -/
inductive UserStatus where
  | active
  | invitationSent
  deriving Repr, DecidableEq

/-- `diesel_models::enums::UserRoleVersion`. -/
inductive UserRoleVersion where
  | v1
  | v2
  deriving Repr, DecidableEq

/-- `common_enums::EntityType`, restricted to the scopes this file uses. -/
inductive REntityType where
  | organization
  | merchant
  | internalScope
  | profile
  deriving Repr, DecidableEq

/-- A user-role row (`UserRoleNew` / `UserRole`): both the payload rows sent
to the store and the rows it echoes back have this shape. -/
structure UserRoleRow where
  user_id : List Char
  role_id : List Char
  status : UserStatus
  created_by : List Char
  last_modified_by : List Char
  created_at : Nat
  last_modified : Nat
  org_id : Option (List Char)
  merchant_id : Option MerchantIdT
  profile_id : Option (List Char)
  entity_id : Option (List Char)
  entity_type : Option REntityType
  version : UserRoleVersion
  deriving Repr, DecidableEq

/-- `MerchantLevel` (user.rs lines 1184-1188). -/
structure MerchantLevel where
  org_id : List Char
  merchant_id : MerchantIdT
  deriving Repr, DecidableEq

/-- `NewUserRole<E>` (user.rs lines 1202-1212). -/
structure NewUserRole (E : Type) where
  user_id : List Char
  role_id : List Char
  status : UserStatus
  created_by : List Char
  last_modified_by : List Char
  created_at : Nat
  last_modified : Nat
  entity : E

/-- `EntityInfo` (user.rs lines 1232-1238). -/
structure EntityInfo where
  org_id : List Char
  merchant_id : Option MerchantIdT
  profile_id : Option (List Char)
  entity_id : List Char
  entity_type : REntityType

/-- `convert_to_new_v1_role` (user.rs lines 1244-1264): a V1 row always
carries the given organization and merchant ids and no profile/entity
data. -/
def NewUserRole.convertToNewV1Role {E : Type} (self : NewUserRole E)
    (org_id : List Char) (merchant_id : MerchantIdT) : UserRoleRow :=
  { user_id := self.user_id
    role_id := self.role_id
    status := self.status
    created_by := self.created_by
    last_modified_by := self.last_modified_by
    created_at := self.created_at
    last_modified := self.last_modified
    org_id := some org_id
    merchant_id := some merchant_id
    profile_id := none
    entity_id := none
    entity_type := none
    version := .v1 }

/-- `convert_to_new_v2_role` (user.rs lines 1266-1282): a V2 row carries the
entity info's organization id, optional merchant/profile ids and the
`(entity_id, entity_type)` pair. -/
def NewUserRole.convertToNewV2Role {E : Type} (self : NewUserRole E)
    (entity : EntityInfo) : UserRoleRow :=
  { user_id := self.user_id
    role_id := self.role_id
    status := self.status
    created_by := self.created_by
    last_modified_by := self.last_modified_by
    created_at := self.created_at
    last_modified := self.last_modified
    org_id := some entity.org_id
    merchant_id := entity.merchant_id
    profile_id := entity.profile_id
    entity_id := some entity.entity_id
    entity_type := some entity.entity_type
    version := .v2 }

/-- `db::user_role::InsertUserRolePayload`. -/
inductive InsertUserRolePayload where
  | onlyV1 (row : UserRoleRow)
  | onlyV2 (row : UserRoleRow)
  | v1AndV2 (first second : UserRoleRow)
  deriving Repr, DecidableEq

/-- The store's `insert_user_role` capability: one call takes one payload
(the `V1AndV2` payload is a single atomic unit) and either fails or echoes
back the list of inserted rows. -/
def RoleStore := InsertUserRolePayload → Except Unit (List UserRoleRow)

/-- `insert_v1_and_v2_in_db_and_get_v1` (user.rs lines 1284-1300): one
`V1AndV2` store call; a store failure is an internal error; on success the
first returned row with version V1 is the result, and its absence is an
internal error. -/
def NewUserRole.insertV1AndV2InDbAndGetV1 (store : RoleStore)
    (v1_role v2_role : UserRoleRow) :
    Except UserErr UserRoleRow × List InsertUserRolePayload :=
  match store (.v1AndV2 v1_role v2_role) with
  | .error _ => (.error .internalServerError, [.v1AndV2 v1_role v2_role])
  | .ok inserted_roles =>
    match inserted_roles.find? (fun role => role.version == .v1) with
    | some role => (.ok role, [.v1AndV2 v1_role v2_role])
    | none => (.error .internalServerError, [.v1AndV2 v1_role v2_role])

/-- `NewUserRole<MerchantLevel>::insert_in_v1_and_v2` (user.rs lines
1358-1376): build the V1 row from the merchant entity's org and merchant
ids, build the V2 row with the merchant id as entity id and `Merchant` as
entity type, and submit both through the atomic dual-write. -/
def NewUserRole.merchantInsertInV1AndV2 (self : NewUserRole MerchantLevel)
    (store : RoleStore) : Except UserErr UserRoleRow × List InsertUserRolePayload :=
  let entity := self.entity
  let new_v1_role := self.convertToNewV1Role entity.org_id entity.merchant_id
  let new_v2_role := self.convertToNewV2Role
    { org_id := entity.org_id
      merchant_id := some entity.merchant_id
      profile_id := none
      entity_id := entity.merchant_id.stringRepr
      entity_type := .merchant }
  NewUserRole.insertV1AndV2InDbAndGetV1 store new_v1_role new_v2_role

/-! ## Key store manager (C5) -/

/-- A ciphertext produced by the authenticated-encryption capability
(`domain_types::crypto_operation` with `CryptoOperation::Encrypt`):
`plaintext` encrypted under `masterKey`. -/
structure EncryptedKey where
  plaintext : List Nat
  masterKey : List Nat
  deriving Repr, DecidableEq

/-- A `UserKeyStore` row: user id, encrypted key, creation time. -/
structure KeyStoreRow where
  user_id : List Char
  key : EncryptedKey
  created_at : Nat
  deriving Repr, DecidableEq

/-- Outcomes of the calls `get_or_create_key_store` makes: the fetch by user
id (`get_user_key_store_by_user_id`), the key generation
(`services::generate_aes256_key`), the encryption under the master key, and
the insertion (`insert_user_key_store`). -/
structure KeyStoreEnv where
  fetch : Except DbError KeyStoreRow
  generateKey : Except Unit (List Nat)
  encryptOutcome : Except Unit Unit
  insertKeyStore : Except Unit KeyStoreRow

/-- One store call made by `get_or_create_key_store`. -/
inductive KSCall where
  | fetch (user_id : List Char)
  | insertKeyStore (row : KeyStoreRow)
  deriving Repr, DecidableEq

/-- Whether a key-store call is an insertion. -/
def KSCall.isInsert : KSCall → Bool
  | .insertKeyStore _ => true
  | _ => false

/-- `UserFromStorage::get_or_create_key_store` (user.rs lines 976-1039): if
the fetch succeeds, return the fetched row; otherwise, only when the fetch
error is a not-found, generate a fresh key, encrypt it under the master key
and insert a new row (key-generation, encryption and insertion failures are
internal errors); any other fetch failure is an internal error with no
insertion. The feature-gated transfer to the external key manager is not
modelled. -/
def UserFromStorage.getOrCreateKeyStore (user : UserRow) (masterKey : List Nat)
    (now : Nat) (env : KeyStoreEnv) : Except UserErr KeyStoreRow × List KSCall :=
  match env.fetch with
  | .ok key_store => (.ok key_store, [.fetch user.user_id])
  | .error e =>
    if e.isNotFound then
      match env.generateKey with
      | .error _ => (.error .internalServerError, [.fetch user.user_id])
      | .ok key =>
        match env.encryptOutcome with
        | .error _ => (.error .internalServerError, [.fetch user.user_id])
        | .ok () =>
          let key_store : KeyStoreRow :=
            { user_id := user.user_id
              key := { plaintext := key, masterKey := masterKey }
              created_at := now }
          match env.insertKeyStore with
          | .ok inserted => (.ok inserted, [.fetch user.user_id, .insertKeyStore key_store])
          | .error _ =>
            (.error .internalServerError, [.fetch user.user_id, .insertKeyStore key_store])
    else
      (.error .internalServerError, [.fetch user.user_id])

/-! ## `FieldType` and its equality (C9) -/

/-- `api_models::enums::FieldType` (enums.rs lines 458-494). -/
inductive FieldType where
  | userCardNumber
  | userCardExpiryMonth
  | userCardExpiryYear
  | userCardCvc
  | userFullName
  | userEmailAddress
  | userPhoneNumber
  | userPhoneNumberCountryCode
  | userCountry (options : List String)
  | userCurrency (options : List String)
  | userCryptoCurrencyNetwork
  | userBillingName
  | userAddressLine1
  | userAddressLine2
  | userAddressCity
  | userAddressPincode
  | userAddressState
  | userAddressCountry (options : List String)
  | userShippingName
  | userShippingAddressLine1
  | userShippingAddressLine2
  | userShippingAddressCity
  | userShippingAddressPincode
  | userShippingAddressState
  | userShippingAddressCountry (options : List String)
  | userBlikCode
  | userBank
  | text
  | dropDown (options : List String)
  | userDateOfBirth
  | userVpaId
  | languagePreference (options : List String)
  | userPixKey
  | userCpf
  | userCnpj
  deriving Repr, DecidableEq

/-- The hand-written equality on `FieldType` (enums.rs lines 523-587): it
compares the inner options of `UserCountry`, `UserCurrency` and `DropDown`,
but deliberately ignores the options of `UserAddressCountry`,
`UserShippingAddressCountry` and `LanguagePreference`; different
constructors are never equal. -/
def FieldType.eq : FieldType → FieldType → Bool
  | .userCardNumber, .userCardNumber => true
  | .userCardExpiryMonth, .userCardExpiryMonth => true
  | .userCardExpiryYear, .userCardExpiryYear => true
  | .userCardCvc, .userCardCvc => true
  | .userFullName, .userFullName => true
  | .userEmailAddress, .userEmailAddress => true
  | .userPhoneNumber, .userPhoneNumber => true
  | .userPhoneNumberCountryCode, .userPhoneNumberCountryCode => true
  | .userCountry options_self, .userCountry options_other => options_self == options_other
  | .userCurrency options_self, .userCurrency options_other => options_self == options_other
  | .userCryptoCurrencyNetwork, .userCryptoCurrencyNetwork => true
  | .userBillingName, .userBillingName => true
  | .userAddressLine1, .userAddressLine1 => true
  | .userAddressLine2, .userAddressLine2 => true
  | .userAddressCity, .userAddressCity => true
  | .userAddressPincode, .userAddressPincode => true
  | .userAddressState, .userAddressState => true
  | .userAddressCountry _, .userAddressCountry _ => true
  | .userShippingName, .userShippingName => true
  | .userShippingAddressLine1, .userShippingAddressLine1 => true
  | .userShippingAddressLine2, .userShippingAddressLine2 => true
  | .userShippingAddressCity, .userShippingAddressCity => true
  | .userShippingAddressPincode, .userShippingAddressPincode => true
  | .userShippingAddressState, .userShippingAddressState => true
  | .userShippingAddressCountry _, .userShippingAddressCountry _ => true
  | .userBlikCode, .userBlikCode => true
  | .userBank, .userBank => true
  | .text, .text => true
  | .dropDown options_self, .dropDown options_other => options_self == options_other
  | .userDateOfBirth, .userDateOfBirth => true
  | .userVpaId, .userVpaId => true
  | .userPixKey, .userPixKey => true
  | .userCpf, .userCpf => true
  | .userCnpj, .userCnpj => true
  | .languagePreference _, .languagePreference _ => true
  | _, _ => false

/-! ## Concrete sample inputs

Stub capabilities and sample rows used to instantiate the theorems below at
concrete inputs. -/

/-- A stub password-hashing capability: prepends a marker character. -/
def stubHash : List Char → Except UserErr (List Char) := fun p => .ok ('h' :: p)

/-- A stub password-verification capability: a candidate verifies against a
stored hash exactly when hashing it with `stubHash` reproduces the hash. -/
def stubVerify : List Char → List Char → Except UserErr Bool :=
  fun candidate hashed => .ok (('h' :: candidate) == hashed)

/-- A sample user row with no password set. -/
def rowNoPassword : UserRow :=
  { user_id := str "user1"
    name := str "ada"
    email := str "ada@example.com"
    password := none
    is_verified := false
    created_at := some 0
    last_modified_at := some 0
    preferred_merchant_id := none
    totp_status := .notSet
    totp_secret := none
    totp_recovery_codes := none
    last_password_modified_at := none }

/-- A sample user row holding the stub hash of `"Secret1."`. -/
def rowWithPassword : UserRow :=
  { rowNoPassword with password := some (str "hSecret1.") }

/-- A sample validated merchant aggregate. -/
def sampleMerchant : NewUserMerchant :=
  { merchant_id := .fromName (str "acme")
    company_name := some (str "Acme")
    new_organization := { org_id := str "org1", org_name := some (str "Acme") } }

/-- A sample validated `NewUser` aggregate with a password. -/
def sampleNewUser : NewUser :=
  { user_id := str "user1"
    name := str "ada"
    email := str "ada@example.com"
    password := some (str "Secret1.")
    new_merchant := sampleMerchant }

/-- The storage row obtained by converting `sampleNewUser` with `stubHash`
at time 0. -/
def sampleUserRow : UserRow :=
  { user_id := str "user1"
    name := str "ada"
    email := str "ada@example.com"
    password := some (str "hSecret1.")
    is_verified := false
    created_at := some 0
    last_modified_at := some 0
    preferred_merchant_id := none
    totp_status := .notSet
    totp_secret := none
    totp_recovery_codes := none
    last_password_modified_at := some 0 }

/-- A provisioning environment in which neither the user nor the merchant
exists yet, merchant creation succeeds, and the user insertion fails with a
uniqueness violation. -/
def envUserInsertConflict : ProvisionEnv :=
  { userByEmailFound := false
    merchantKeyStoreFound := false
    createMerchantAccount := .ok ()
    insertUser := .error { isUniqueViolation := true, isNotFound := false }
    deleteMerchant := .ok () }

/-- A stub role store that echoes back the rows of a dual-write payload and
rejects single-version payloads. -/
def stubRoleStore : RoleStore := fun payload =>
  match payload with
  | .v1AndV2 a b => .ok [a, b]
  | _ => .error ()

/-- A stub role store that echoes back only the V2 row of a dual-write
payload. -/
def stubRoleStoreV2Only : RoleStore := fun payload =>
  match payload with
  | .v1AndV2 _ b => .ok [b]
  | _ => .error ()

/-- A sample merchant-scoped role ready for insertion. -/
def sampleMerchantRole : NewUserRole MerchantLevel :=
  { user_id := str "user1"
    role_id := str "role1"
    status := .active
    created_by := str "user1"
    last_modified_by := str "user1"
    created_at := 0
    last_modified := 0
    entity := { org_id := str "org1", merchant_id := .fromName (str "acme") } }

/-- A sample key-store row. -/
def sampleKeyStore : KeyStoreRow :=
  { user_id := str "user1"
    key := { plaintext := [1, 2], masterKey := [9] }
    created_at := 5 }

/-- A key-store environment whose fetch succeeds. -/
def ksEnvFetchOk : KeyStoreEnv :=
  { fetch := .ok sampleKeyStore
    generateKey := .ok [3, 4]
    encryptOutcome := .ok ()
    insertKeyStore := .ok sampleKeyStore }

/-- A key-store environment whose fetch fails with a not-found outcome. -/
def ksEnvNotFound : KeyStoreEnv :=
  { ksEnvFetchOk with
    fetch := .error { isUniqueViolation := false, isNotFound := true } }

/-- A key-store environment whose fetch fails with an outcome other than
not-found. -/
def ksEnvOtherFailure : KeyStoreEnv :=
  { ksEnvFetchOk with
    fetch := .error { isUniqueViolation := false, isNotFound := false } }

/-! ## Theorems -/

/-- C3: for every password string `p`, `UserPassword::new(p)` succeeds if and
only if `p` contains no whitespace character, its grapheme length lies within
`[MIN_PASSWORD_LENGTH, MAX_PASSWORD_LENGTH]`, and `p` contains at least one
uppercase, one lowercase, one numeric and one non-alphanumeric character. -/
theorem userPassword_new_succeeds_iff (p : PasswordStr) :
    (UserPassword.new p).isOk = true ↔
      ((p.chars.any (·.isWhitespace)) = false ∧
        MIN_PASSWORD_LENGTH ≤ p.graphemeCount ∧
        p.graphemeCount ≤ MAX_PASSWORD_LENGTH ∧
        (p.chars.any (·.isUppercase)) = true ∧
        (p.chars.any (·.isLowercase)) = true ∧
        (p.chars.any (·.isNumeric)) = true ∧
        (p.chars.any (fun c => !c.isAlphanumeric)) = true) := by
  have key : (UserPassword.new p).isOk = true ↔
      (decide (p.graphemeCount < MIN_PASSWORD_LENGTH) ||
        decide (p.graphemeCount > MAX_PASSWORD_LENGTH) ||
        !(p.chars.any (·.isUppercase) && p.chars.any (·.isLowercase) &&
          p.chars.any (·.isNumeric) && p.chars.any (fun c => !c.isAlphanumeric) &&
          !p.chars.any (·.isWhitespace))) = false := by
    unfold UserPassword.new
    dsimp only
    split <;> rename_i h
    · rw [h]
      simp [Except.isOk, Except.toBool]
    · simp only [Bool.not_eq_true] at h
      rw [h]
      simp [Except.isOk, Except.toBool]
  rw [key]
  rcases hU : p.chars.any (·.isUppercase) <;>
    rcases hL : p.chars.any (·.isLowercase) <;>
    rcases hN : p.chars.any (·.isNumeric) <;>
    rcases hS : p.chars.any (fun c => !c.isAlphanumeric) <;>
    rcases hW : p.chars.any (·.isWhitespace) <;>
    simp only [hU, hL, hN, hS, hW, Bool.and_true, Bool.and_false, Bool.true_and,
      Bool.false_and, Bool.not_true, Bool.not_false, Bool.or_true, Bool.or_false,
      Bool.or_eq_false_iff, decide_eq_false_iff_not, not_lt, gt_iff_lt] <;>
    simp

/-- C9: the hand-written `FieldType` equality ignores the inner options of
`UserAddressCountry` (any two options lists compare equal), and
`UserAddressCountry` never equals `UserShippingAddressCountry` regardless of
either side's options. -/
theorem fieldType_eq_userAddressCountry (A B : List String) :
    FieldType.eq (.userAddressCountry A) (.userAddressCountry B) = true ∧
    FieldType.eq (.userAddressCountry A) (.userShippingAddressCountry B) = false ∧
    FieldType.eq (.userShippingAddressCountry A) (.userAddressCountry B) = false := by
  exact ⟨rfl, rfl, rfl⟩

/-- C6: with no stored password hash, `compare_password` fails with
`InvalidCredentials` for every candidate; with a stored hash it succeeds
exactly when the verification capability answers true, and answers of false
yield `InvalidCredentials`. -/
theorem comparePassword_spec (verify : List Char → List Char → Except UserErr Bool)
    (user : UserRow) (candidate : List Char) :
    (user.password = none →
      UserFromStorage.comparePassword verify user candidate = .error .invalidCredentials) ∧
    (∀ hashed, user.password = some hashed →
      (((UserFromStorage.comparePassword verify user candidate).isOk = true) ↔
        verify candidate hashed = .ok true) ∧
      (verify candidate hashed = .ok false →
        UserFromStorage.comparePassword verify user candidate = .error .invalidCredentials)) := by
  unfold UserFromStorage.comparePassword
  constructor
  · intro hnone
    rw [hnone]
  · intro hashed hsome
    rw [hsome]
    dsimp only
    constructor
    · cases hv : verify candidate hashed with
      | ok b => cases b <;> simp [hv, Except.isOk, Except.toBool]
      | error e => simp [hv, Except.isOk, Except.toBool]
    · intro hv
      rw [hv]

/-- Closed instance of `comparePassword_spec`: a user with no password never
verifies; a user with a stored stub hash verifies exactly the matching
candidate. -/
theorem comparePassword_spec_witness :
    UserFromStorage.comparePassword stubVerify rowNoPassword (str "Secret1.") =
        .error .invalidCredentials ∧
      (UserFromStorage.comparePassword stubVerify rowWithPassword (str "Secret1.")).isOk
        = true ∧
      UserFromStorage.comparePassword stubVerify rowWithPassword (str "wrong") =
        .error .invalidCredentials :=
  ⟨(comparePassword_spec stubVerify rowNoPassword (str "Secret1.")).1 rfl,
    ((comparePassword_spec stubVerify rowWithPassword (str "Secret1.")).2
      (str "hSecret1.") rfl).1.mpr rfl,
    ((comparePassword_spec stubVerify rowWithPassword (str "wrong")).2
      (str "hSecret1.") rfl).2 rfl⟩

/-- C10: a successful `NewUser` → storage-row conversion always produces a
row with `is_verified = false`, `totp_status = NotSet`, no TOTP secret, no
recovery codes and no preferred merchant; its password field is the hashing
capability's output exactly when a password was supplied; and
`last_password_modified_at` is the creation timestamp exactly when a
password was supplied. -/
theorem tryIntoUserNew_spec (hash : List Char → Except UserErr (List Char))
    (now : Nat) (u : NewUser) (row : UserRow) :
    NewUser.tryIntoUserNew hash now u = .ok row →
      row.is_verified = false ∧
      row.totp_status = .notSet ∧
      row.totp_secret = none ∧
      row.totp_recovery_codes = none ∧
      row.preferred_merchant_id = none ∧
      (u.password = none → row.password = none ∧ row.last_password_modified_at = none) ∧
      (∀ q, u.password = some q →
        (∃ hq, hash q = .ok hq ∧ row.password = some hq) ∧
        row.last_password_modified_at = some now) := by
  intro h
  unfold NewUser.tryIntoUserNew at h
  cases hpw : u.password with
  | none =>
    rw [hpw] at h
    dsimp only at h
    injection h with h
    subst h
    refine ⟨rfl, rfl, rfl, rfl, rfl, fun _ => ⟨rfl, by simp⟩, ?_⟩
    intro q hq
    exact Option.noConfusion hq
  | some q =>
    rw [hpw] at h
    dsimp only at h
    cases hh : hash q with
    | error e =>
      rw [hh] at h
      simp only [Except.map, Bind.bind, Except.bind] at h
      exact Except.noConfusion h
    | ok hq =>
      rw [hh] at h
      simp only [Except.map, Bind.bind, Except.bind] at h
      injection h with h
      subst h
      refine ⟨rfl, rfl, rfl, rfl, rfl, ?_, ?_⟩
      · intro hnone
        exact Option.noConfusion hnone
      · intro q2 hq2
        injection hq2 with hq2
        subst hq2
        exact ⟨⟨hq, hh, rfl⟩, by simp⟩

/-- Closed instance of `tryIntoUserNew_spec` at the sample user and stub
hashing capability. -/
theorem tryIntoUserNew_spec_witness :
    NewUser.tryIntoUserNew stubHash 0 sampleNewUser = .ok sampleUserRow ∧
      sampleUserRow.is_verified = false ∧
      sampleUserRow.totp_status = .notSet ∧
      sampleUserRow.preferred_merchant_id = none ∧
      sampleUserRow.password = some (str "hSecret1.") ∧
      sampleUserRow.last_password_modified_at = some 0 := by
  have h : NewUser.tryIntoUserNew stubHash 0 sampleNewUser = .ok sampleUserRow := rfl
  have spec := tryIntoUserNew_spec stubHash 0 sampleNewUser sampleUserRow h
  exact ⟨h, spec.1, spec.2.1, spec.2.2.2.2.1, rfl, rfl⟩

/-- C7: `UserEmail::new` fails with an invalid-email error whenever the
domain part (the substring after the first `@`) is in the blocked set, even
when the email is otherwise accepted by the parser and the syntax validator;
emails rejected by the parser or by the syntax validator fail with a parsing
error. -/
theorem userEmail_new_blocked_domain (parse validateEmail : List Char → Bool)
    (blocked : List (List Char)) (e u d : List Char) :
    (parse e = true → validateEmail e = true → splitOnce '@' e = some (u, d) →
      blocked.contains d = true →
      UserEmail.new parse validateEmail blocked e = .error .invalidEmailError) ∧
    (parse e = false →
      UserEmail.new parse validateEmail blocked e = .error .emailParsingError) ∧
    (parse e = true → validateEmail e = false →
      UserEmail.new parse validateEmail blocked e = .error .emailParsingError) := by
  unfold UserEmail.new
  refine ⟨?_, ?_, ?_⟩
  · intro hp hv hsplit hb
    rw [hp, hv, hsplit]
    dsimp only
    rw [hb]
    rfl
  · intro hp
    rw [hp]
    rfl
  · intro hp hv
    rw [hp, hv]
    rfl

/-- Closed instance of `userEmail_new_blocked_domain`: with
`mailinator.com` blocked, a syntactically fine address at that domain is
rejected as invalid, and an address the validator rejects fails as a
parsing error. -/
theorem userEmail_new_blocked_domain_witness :
    UserEmail.new (fun s => s.contains '@') (fun s => s.contains '@')
        [str "mailinator.com"] (str "a@mailinator.com") = .error .invalidEmailError ∧
      UserEmail.new (fun s => s.contains '@') (fun s => s.contains '@')
        [str "mailinator.com"] (str "a@b") = .ok (str "a@b") ∧
      UserEmail.new (fun _ => false) (fun s => s.contains '@')
        [str "mailinator.com"] (str "nodomain") = .error .emailParsingError :=
  ⟨(userEmail_new_blocked_domain (fun s => s.contains '@') (fun s => s.contains '@')
      [str "mailinator.com"] (str "a@mailinator.com") (str "a")
      (str "mailinator.com")).1 rfl rfl rfl rfl,
    rfl,
    (userEmail_new_blocked_domain (fun _ => false) (fun s => s.contains '@')
      [str "mailinator.com"] (str "nodomain") [] []).2.1 rfl⟩

/-- C8 counterexample: the claim says `RoleName::new` fails exactly when the
trimmed name is empty, the name is over-long, or the name contains an
interior space; but `" admin"` trims to a nonempty in-bounds name and has no
interior space, yet `RoleName::new` rejects it (the source rejects any space,
including leading or trailing ones). -/
theorem roleName_interior_space_counterexample :
    RoleName.new (str " admin") = .error .roleNameParsingError ∧
      (trimChars (str " admin")).isEmpty = false ∧
      ¬((str " admin").length > MAX_ROLE_NAME_LENGTH) ∧
      hasInteriorSpace (str " admin") = false := by
  exact ⟨rfl, rfl, by decide, rfl⟩

/-- C8 as amended: `RoleName::new` is idempotent under casing — whenever it
succeeds on two casing variants the stored values agree, and every success
stores the lowercased input; and it fails exactly when the trimmed name is
empty, the grapheme length exceeds the maximum, or the name contains a space
character anywhere (not only interior ones). -/
theorem roleName_new_amended (s t : List Char) :
    (∀ v, RoleName.new s = .ok v → v = lowerChars s) ∧
    (casingVariant s t →
      ∀ v w, RoleName.new s = .ok v → RoleName.new t = .ok w → v = w) ∧
    (RoleName.new s = .error .roleNameParsingError ↔
      ((trimChars s).isEmpty = true ∨ s.length > MAX_ROLE_NAME_LENGTH ∨
        s.contains ' ' = true)) := by
  have hval : ∀ r : List Char, ∀ v, RoleName.new r = .ok v → v = lowerChars r := by
    intro r v h
    unfold RoleName.new at h
    dsimp only at h
    split at h
    · exact Except.noConfusion h
    · injection h with h
      exact h.symm
  refine ⟨hval s, ?_, ?_⟩
  · intro hcase v w hs ht
    rw [hval s v hs, hval t w ht]
    exact hcase
  · unfold RoleName.new
    dsimp only
    split
    · rename_i h
      simp only [Bool.or_eq_true, decide_eq_true_eq] at h
      refine iff_of_true rfl ?_
      rcases h with (h | h) | h
      · exact Or.inl h
      · exact Or.inr (Or.inl h)
      · exact Or.inr (Or.inr h)
    · rename_i h
      simp only [Bool.or_eq_true, decide_eq_true_eq, not_or, Bool.not_eq_true] at h
      obtain ⟨⟨h1, h2⟩, h3⟩ := h
      refine iff_of_false (fun hcontra => Except.noConfusion hcontra) ?_
      rintro (hr | hr | hr)
      · rw [h1] at hr
        exact Bool.noConfusion hr
      · exact absurd hr h2
      · rw [h3] at hr
        exact Bool.noConfusion hr

/-- Closed instance of `roleName_new_amended`: `"Admin"` and `"admin"` both
succeed with the same stored value, and `"role name"` fails. -/
theorem roleName_new_amended_witness :
    RoleName.new (str "Admin") = .ok (str "admin") ∧
      RoleName.new (str "admin") = .ok (str "admin") ∧
      RoleName.new (str "Admin") = RoleName.new (str "admin") ∧
      RoleName.new (str "role name") = .error .roleNameParsingError := by
  have h1 : RoleName.new (str "Admin") = .ok (lowerChars (str "Admin")) := rfl
  have h2 : RoleName.new (str "admin") = .ok (lowerChars (str "admin")) := rfl
  have heq := (roleName_new_amended (str "Admin") (str "admin")).2.1 rfl
    (lowerChars (str "Admin")) (lowerChars (str "admin")) h1 h2
  have h3 := (roleName_new_amended (str "role name") (str "role name")).2.2.mpr
    (Or.inr (Or.inr rfl))
  exact ⟨h1, h2, by rw [h1, h2, heq], h3⟩

/-- C5: `get_or_create_key_store` returns the fetched row when the fetch
succeeds; only when the fetch fails with a not-found outcome does it
generate a fresh key, encrypt it under the master key and insert a new
key-store row; any other fetch failure yields an internal error, and no
insertion ever happens without a not-found fetch failure. -/
theorem getOrCreateKeyStore_spec (user : UserRow) (masterKey : List Nat)
    (now : Nat) (env : KeyStoreEnv) :
    (∀ ks, env.fetch = .ok ks →
      UserFromStorage.getOrCreateKeyStore user masterKey now env =
        (.ok ks, [.fetch user.user_id])) ∧
    (∀ e, env.fetch = .error e → e.isNotFound = false →
      UserFromStorage.getOrCreateKeyStore user masterKey now env =
        (.error .internalServerError, [.fetch user.user_id])) ∧
    (∀ e key, env.fetch = .error e → e.isNotFound = true →
      env.generateKey = .ok key → env.encryptOutcome = .ok () →
      (UserFromStorage.getOrCreateKeyStore user masterKey now env).2 =
        [.fetch user.user_id, .insertKeyStore
          { user_id := user.user_id
            key := { plaintext := key, masterKey := masterKey }
            created_at := now }]) ∧
    ((UserFromStorage.getOrCreateKeyStore user masterKey now env).2.any
        KSCall.isInsert = true →
      ∃ e, env.fetch = .error e ∧ e.isNotFound = true) := by
  unfold UserFromStorage.getOrCreateKeyStore
  refine ⟨?_, ?_, ?_, ?_⟩
  · intro ks hf
    rw [hf]
  · intro e hf hnf
    rw [hf]
    dsimp only
    simp [hnf]
  · intro e key hf hnf hgen henc
    rw [hf]
    dsimp only
    cases hins : env.insertKeyStore <;> simp [hnf, hgen, henc, hins]
  · cases hf : env.fetch with
    | ok ks => simp [KSCall.isInsert]
    | error e =>
      by_cases hnf : e.isNotFound = true
      · exact fun _ => ⟨e, rfl, hnf⟩
      · simp only [Bool.not_eq_true] at hnf
        simp [hnf, KSCall.isInsert]

/-- Closed instance of `getOrCreateKeyStore_spec` at the three sample
key-store environments. -/
theorem getOrCreateKeyStore_spec_witness :
    UserFromStorage.getOrCreateKeyStore rowNoPassword [9] 0 ksEnvFetchOk =
        (.ok sampleKeyStore, [.fetch (str "user1")]) ∧
      UserFromStorage.getOrCreateKeyStore rowNoPassword [9] 0 ksEnvOtherFailure =
        (.error .internalServerError, [.fetch (str "user1")]) ∧
      (UserFromStorage.getOrCreateKeyStore rowNoPassword [9] 0 ksEnvNotFound).2 =
        [.fetch (str "user1"), .insertKeyStore
          { user_id := str "user1"
            key := { plaintext := [3, 4], masterKey := [9] }
            created_at := 0 }] :=
  ⟨(getOrCreateKeyStore_spec rowNoPassword [9] 0 ksEnvFetchOk).1 sampleKeyStore rfl,
    (getOrCreateKeyStore_spec rowNoPassword [9] 0 ksEnvOtherFailure).2.1
      { isUniqueViolation := false, isNotFound := false } rfl rfl,
    (getOrCreateKeyStore_spec rowNoPassword [9] 0 ksEnvNotFound).2.2.1
      { isUniqueViolation := false, isNotFound := true } [3, 4] rfl rfl rfl rfl⟩

/-- Helper: the dual-write helper makes exactly one store call, carrying the
two rows as one `V1AndV2` payload, whatever the store answers. -/
theorem insertV1AndV2_trace (store : RoleStore) (v1_role v2_role : UserRoleRow) :
    (NewUserRole.insertV1AndV2InDbAndGetV1 store v1_role v2_role).2 =
      [.v1AndV2 v1_role v2_role] := by
  unfold NewUserRole.insertV1AndV2InDbAndGetV1
  cases store (.v1AndV2 v1_role v2_role) with
  | error e => rfl
  | ok roles =>
    dsimp only
    cases roles.find? (fun role => role.version == .v1) <;> rfl

/-- Helper: when the store echoes rows back and one of them has version V1,
the dual-write helper returns the first such row. -/
theorem insertV1AndV2_found (store : RoleStore) (v1_role v2_role : UserRoleRow)
    (roles : List UserRoleRow) (row : UserRoleRow)
    (hst : store (.v1AndV2 v1_role v2_role) = .ok roles)
    (hf : roles.find? (fun role => role.version == .v1) = some row) :
    (NewUserRole.insertV1AndV2InDbAndGetV1 store v1_role v2_role).1 = .ok row := by
  unfold NewUserRole.insertV1AndV2InDbAndGetV1
  rw [hst]
  dsimp only
  rw [hf]

/-- Helper: when the store echoes rows back and none has version V1, the
dual-write helper fails with an internal error. -/
theorem insertV1AndV2_noV1 (store : RoleStore) (v1_role v2_role : UserRoleRow)
    (roles : List UserRoleRow)
    (hst : store (.v1AndV2 v1_role v2_role) = .ok roles)
    (hf : roles.find? (fun role => role.version == .v1) = none) :
    (NewUserRole.insertV1AndV2InDbAndGetV1 store v1_role v2_role).1 =
      .error .internalServerError := by
  unfold NewUserRole.insertV1AndV2InDbAndGetV1
  rw [hst]
  dsimp only
  rw [hf]

/-- C2: `NewUserRole<MerchantLevel>::insert_in_v1_and_v2` makes exactly one
store call with an atomic `V1AndV2` payload whose two rows are a V1 row and
a V2 row for the same `(user_id, role_id)`; on success it returns the V1 row
found among the rows the store echoes back, and when no V1 row is present it
fails with an internal error. -/
theorem merchantRole_dualWrite_spec (r : NewUserRole MerchantLevel)
    (store : RoleStore) :
    (NewUserRole.merchantInsertInV1AndV2 r store).2 =
      [.v1AndV2 (r.convertToNewV1Role r.entity.org_id r.entity.merchant_id)
        (r.convertToNewV2Role
          { org_id := r.entity.org_id
            merchant_id := some r.entity.merchant_id
            profile_id := none
            entity_id := r.entity.merchant_id.stringRepr
            entity_type := .merchant })] ∧
    ((r.convertToNewV1Role r.entity.org_id r.entity.merchant_id).version = .v1 ∧
      (r.convertToNewV2Role
        { org_id := r.entity.org_id
          merchant_id := some r.entity.merchant_id
          profile_id := none
          entity_id := r.entity.merchant_id.stringRepr
          entity_type := .merchant }).version = .v2) ∧
    ((r.convertToNewV1Role r.entity.org_id r.entity.merchant_id).user_id = r.user_id ∧
      (r.convertToNewV2Role
        { org_id := r.entity.org_id
          merchant_id := some r.entity.merchant_id
          profile_id := none
          entity_id := r.entity.merchant_id.stringRepr
          entity_type := .merchant }).user_id = r.user_id ∧
      (r.convertToNewV1Role r.entity.org_id r.entity.merchant_id).role_id = r.role_id ∧
      (r.convertToNewV2Role
        { org_id := r.entity.org_id
          merchant_id := some r.entity.merchant_id
          profile_id := none
          entity_id := r.entity.merchant_id.stringRepr
          entity_type := .merchant }).role_id = r.role_id) ∧
    (∀ roles row,
      store (.v1AndV2 (r.convertToNewV1Role r.entity.org_id r.entity.merchant_id)
        (r.convertToNewV2Role
          { org_id := r.entity.org_id
            merchant_id := some r.entity.merchant_id
            profile_id := none
            entity_id := r.entity.merchant_id.stringRepr
            entity_type := .merchant })) = .ok roles →
      roles.find? (fun role => role.version == .v1) = some row →
      (NewUserRole.merchantInsertInV1AndV2 r store).1 = .ok row ∧
        row ∈ roles ∧ row.version = .v1) ∧
    (∀ roles,
      store (.v1AndV2 (r.convertToNewV1Role r.entity.org_id r.entity.merchant_id)
        (r.convertToNewV2Role
          { org_id := r.entity.org_id
            merchant_id := some r.entity.merchant_id
            profile_id := none
            entity_id := r.entity.merchant_id.stringRepr
            entity_type := .merchant })) = .ok roles →
      roles.find? (fun role => role.version == .v1) = none →
      (NewUserRole.merchantInsertInV1AndV2 r store).1 =
        .error .internalServerError) := by
  refine ⟨insertV1AndV2_trace store _ _, ⟨rfl, rfl⟩, ⟨rfl, rfl, rfl, rfl⟩, ?_, ?_⟩
  · intro roles row hst hf
    refine ⟨insertV1AndV2_found store _ _ roles row hst hf, List.mem_of_find?_eq_some hf, ?_⟩
    have := List.find?_some hf
    simpa using this
  · intro roles hst hf
    exact insertV1AndV2_noV1 store _ _ roles hst hf

/-- Closed instance of `merchantRole_dualWrite_spec`: against a store that
echoes both rows back the V1 row is returned; against a store that echoes
only the V2 row back the call fails with an internal error. -/
theorem merchantRole_dualWrite_spec_witness :
    (NewUserRole.merchantInsertInV1AndV2 sampleMerchantRole stubRoleStore).1 =
        .ok (sampleMerchantRole.convertToNewV1Role sampleMerchantRole.entity.org_id
          sampleMerchantRole.entity.merchant_id) ∧
      (NewUserRole.merchantInsertInV1AndV2 sampleMerchantRole stubRoleStoreV2Only).1 =
        .error .internalServerError := by
  have spec1 := (merchantRole_dualWrite_spec sampleMerchantRole stubRoleStore).2.2.2.1
    [sampleMerchantRole.convertToNewV1Role sampleMerchantRole.entity.org_id
        sampleMerchantRole.entity.merchant_id,
      sampleMerchantRole.convertToNewV2Role
        { org_id := sampleMerchantRole.entity.org_id
          merchant_id := some sampleMerchantRole.entity.merchant_id
          profile_id := none
          entity_id := sampleMerchantRole.entity.merchant_id.stringRepr
          entity_type := .merchant }]
    (sampleMerchantRole.convertToNewV1Role sampleMerchantRole.entity.org_id
      sampleMerchantRole.entity.merchant_id) rfl rfl
  have spec2 := (merchantRole_dualWrite_spec sampleMerchantRole stubRoleStoreV2Only).2.2.2.2
    [sampleMerchantRole.convertToNewV2Role
      { org_id := sampleMerchantRole.entity.org_id
        merchant_id := some sampleMerchantRole.entity.merchant_id
        profile_id := none
        entity_id := sampleMerchantRole.entity.merchant_id.stringRepr
        entity_type := .merchant }] rfl rfl
  exact ⟨spec1.1, spec2⟩

/-- Helper: the user-insertion step never performs a merchant delete. -/
theorem insertUserInDb_filter_delete (u : NewUser)
    (hash : List Char → Except UserErr (List Char)) (now : Nat)
    (env : ProvisionEnv) :
    (u.insertUserInDb hash now env).2.filter ProvisionCall.isDelete = [] := by
  unfold NewUser.insertUserInDb
  cases NewUser.tryIntoUserNew hash now u with
  | error e => rfl
  | ok row =>
    dsimp only
    cases env.insertUser <;> rfl

/-- C1: when the user and merchant existence checks pass, the merchant
account is created successfully and the subsequent user insertion fails, the
orchestrator attempts exactly one best-effort delete of the just-created
merchant account, returns the original user-insertion error, and the
outcome of the compensating delete never changes the returned error. -/
theorem insertUserAndMerchant_compensation (u : NewUser)
    (hash : List Char → Except UserErr (List Char)) (now : Nat)
    (env : ProvisionEnv) (e : UserErr)
    (huser : env.userByEmailFound = false)
    (hmer : env.merchantKeyStoreFound = false)
    (hcreate : env.createMerchantAccount = .ok ())
    (hfail : (u.insertUserInDb hash now env).1 = .error e) :
    (u.insertUserAndMerchantInDb hash now env).1 = .error e ∧
    (u.insertUserAndMerchantInDb hash now env).2.filter ProvisionCall.isDelete =
      [.deleteMerchant u.new_merchant.merchant_id] ∧
    (∀ d, (u.insertUserAndMerchantInDb hash now
      { env with deleteMerchant := d }).1 = .error e) := by
  have main : ∀ env2 : ProvisionEnv, env2.userByEmailFound = false →
      env2.merchantKeyStoreFound = false → env2.createMerchantAccount = .ok () →
      (u.insertUserInDb hash now env2).1 = .error e →
      (u.insertUserAndMerchantInDb hash now env2).1 = .error e ∧
      (u.insertUserAndMerchantInDb hash now env2).2.filter ProvisionCall.isDelete =
        [.deleteMerchant u.new_merchant.merchant_id] := by
    intro env2 hu hm hc hf
    have h1 : u.checkIfAlreadyExistsInDb env2 = (.ok (), [.findUserByEmail]) := by
      unfold NewUser.checkIfAlreadyExistsInDb
      simp [hu]
    have h2 : u.new_merchant.createNewMerchantAndInsertInDb env2 =
        (.ok (), [.getMerchantKeyStore u.new_merchant.merchant_id,
          .createMerchant
            { merchant_id := u.new_merchant.merchant_id
              merchant_name := u.new_merchant.company_name
              organization_id := some u.new_merchant.new_organization.org_id }]) := by
      unfold NewUserMerchant.createNewMerchantAndInsertInDb
        NewUserMerchant.checkIfAlreadyExistsInDb
        NewUserMerchant.createMerchantAccountRequest
      simp [hm, hc]
    cases hres : u.insertUserInDb hash now env2 with
    | mk res tr2 =>
      have hres1 : res = .error e := by
        rw [hres] at hf
        exact hf
      subst hres1
      have hnd : tr2.filter ProvisionCall.isDelete = [] := by
        have hfull := insertUserInDb_filter_delete u hash now env2
        rw [hres] at hfull
        exact hfull
      constructor
      · unfold NewUser.insertUserAndMerchantInDb
        rw [h1]
        dsimp only
        rw [h2]
        dsimp only
        rw [hres]
      · unfold NewUser.insertUserAndMerchantInDb
        rw [h1]
        dsimp only
        rw [h2]
        dsimp only
        rw [hres]
        dsimp only
        simp [List.filter_append, hnd, ProvisionCall.isDelete]
  refine ⟨(main env huser hmer hcreate hfail).1, (main env huser hmer hcreate hfail).2, ?_⟩
  intro d
  exact (main { env with deleteMerchant := d } huser hmer hcreate hfail).1

/-- Closed instance of `insertUserAndMerchant_compensation` at the sample
user and the environment whose user insertion hits a uniqueness conflict
after merchant creation succeeded. -/
theorem insertUserAndMerchant_compensation_witness :
    (sampleNewUser.insertUserAndMerchantInDb stubHash 0 envUserInsertConflict).1 =
        .error .userExists ∧
      (sampleNewUser.insertUserAndMerchantInDb stubHash 0
        envUserInsertConflict).2.filter ProvisionCall.isDelete =
        [.deleteMerchant (.fromName (str "acme"))] := by
  have spec := insertUserAndMerchant_compensation sampleNewUser stubHash 0
    envUserInsertConflict .userExists rfl rfl rfl rfl
  exact ⟨spec.1, spec.2.1⟩

/-- C4 counterexample: the signup-with-merchant-id request carries a
user-supplied company name, yet its merchant id is derived from the
normalized company name by a conversion that never consults the runtime
environment — so in a non-production runtime the merchant id is still
name-derived, not time-derived, contradicting the claim that every request
shape carrying a company name resolves the merchant id by environment. -/
theorem merchantId_env_counterexample :
    NewUserMerchant.fromSignUpWithMerchantId (str "org1")
        { company_name := str "Acme Corp" } =
      .ok { merchant_id := .fromName (str "acme_corp")
            company_name := some (str "Acme Corp")
            new_organization :=
              { org_id := str "org1", org_name := some (str "Acme Corp") } } ∧
    (NewUserMerchant.fromSignUpWithMerchantId (str "org1")
        { company_name := str "Acme Corp" }).map
      (fun m => m.merchant_id.isTimeDerived) = .ok false :=
  ⟨rfl, rfl⟩

/-- C4 as amended: the environment-dependent merchant-id policy holds for
the add-merchant-to-existing-user request (`UserMerchantCreate`): in a
production runtime the id is derived from the normalized company name, and
in any non-production runtime a time-derived id is used. For the
signup-with-merchant-id request the merchant id is always derived from the
normalized company name, regardless of the runtime environment. -/
theorem merchantId_env_resolution_amended (now : Nat)
    (tokenOrgId genOrgId : List Char) (reqA : UserMerchantCreate)
    (reqB : SignUpWithMerchantIdRequest) (nm cn : List Char) (mid : MerchantIdT) :
    (MerchantId.new reqA.company_name = .ok nm →
      canonicalMerchantId nm = .ok mid →
      UserCompanyName.new reqA.company_name = .ok cn →
      NewUserMerchant.fromUserMerchantCreate .production now tokenOrgId reqA =
        .ok { merchant_id := mid, company_name := some cn,
              new_organization :=
                NewUserOrganization.fromUserMerchantCreate tokenOrgId reqA }) ∧
    (∀ env2 : RuntimeEnv, env2 ≠ .production →
      UserCompanyName.new reqA.company_name = .ok cn →
      NewUserMerchant.fromUserMerchantCreate env2 now tokenOrgId reqA =
        .ok { merchant_id := .fromTimestamp now, company_name := some cn,
              new_organization :=
                NewUserOrganization.fromUserMerchantCreate tokenOrgId reqA }) ∧
    (∀ m2, NewUserMerchant.fromSignUpWithMerchantId genOrgId reqB = .ok m2 →
      m2.merchant_id.isTimeDerived = false ∧
      ∃ nmB, MerchantId.new reqB.company_name = .ok nmB ∧
        canonicalMerchantId nmB = .ok m2.merchant_id) := by
  refine ⟨?_, ?_, ?_⟩
  · intro hm hc hcn
    unfold NewUserMerchant.fromUserMerchantCreate
    simp [hm, hc, hcn, Bind.bind, Except.bind]
  · intro env2 hne hcn
    unfold NewUserMerchant.fromUserMerchantCreate
    simp [hne, hcn, Bind.bind, Except.bind]
  · intro m2 h
    unfold NewUserMerchant.fromSignUpWithMerchantId at h
    cases hcn : UserCompanyName.new reqB.company_name with
    | error e =>
      rw [hcn] at h
      simp [Bind.bind, Except.bind] at h
    | ok cn2 =>
      rw [hcn] at h
      simp only [Bind.bind, Except.bind] at h
      cases hm : MerchantId.new reqB.company_name with
      | error e =>
        rw [hm] at h
        simp at h
      | ok nm2 =>
        rw [hm] at h
        simp only at h
        cases horg : NewUserOrganization.fromSignUpWithMerchantId genOrgId reqB with
        | error e =>
          rw [horg] at h
          simp at h
        | ok org2 =>
          rw [horg] at h
          simp only at h
          cases hc : canonicalMerchantId nm2 with
          | error e =>
            rw [hc] at h
            simp at h
          | ok cid =>
            rw [hc] at h
            simp only [Except.ok.injEq] at h
            subst h
            refine ⟨?_, nm2, rfl, hc⟩
            unfold canonicalMerchantId at hc
            split at hc
            · exact Except.noConfusion hc
            · injection hc with hc
              rw [← hc]
              rfl

/-- Closed instance of `merchantId_env_resolution_amended`: for the
add-merchant request with company name `"Acme Corp"`, a production runtime
yields the name-derived id `acme_corp` while the sandbox runtime yields the
time-derived id; the signup-with-merchant-id conversion yields the
name-derived id. -/
theorem merchantId_env_resolution_amended_witness :
    NewUserMerchant.fromUserMerchantCreate .production 12345 (str "orgT")
        { company_name := str "Acme Corp" } =
      .ok { merchant_id := .fromName (str "acme_corp")
            company_name := some (str "Acme Corp")
            new_organization := NewUserOrganization.fromUserMerchantCreate
              (str "orgT") { company_name := str "Acme Corp" } } ∧
    NewUserMerchant.fromUserMerchantCreate .sandbox 12345 (str "orgT")
        { company_name := str "Acme Corp" } =
      .ok { merchant_id := .fromTimestamp 12345
            company_name := some (str "Acme Corp")
            new_organization := NewUserOrganization.fromUserMerchantCreate
              (str "orgT") { company_name := str "Acme Corp" } } ∧
    (NewUserMerchant.fromSignUpWithMerchantId (str "orgG")
        { company_name := str "Acme Corp" } =
      .ok { merchant_id := .fromName (str "acme_corp")
            company_name := some (str "Acme Corp")
            new_organization :=
              { org_id := str "orgG", org_name := some (str "Acme Corp") } }) ∧
    MerchantIdT.isTimeDerived (.fromName (str "acme_corp")) = false := by
  have spec := merchantId_env_resolution_amended 12345 (str "orgT") (str "orgG")
    { company_name := str "Acme Corp" } { company_name := str "Acme Corp" }
    (str "acme_corp") (str "Acme Corp") (.fromName (str "acme_corp"))
  refine ⟨spec.1 rfl rfl rfl,
    spec.2.1 .sandbox (fun hcontra => RuntimeEnv.noConfusion hcontra) rfl, rfl, ?_⟩
  exact (spec.2.2
    { merchant_id := .fromName (str "acme_corp")
      company_name := some (str "Acme Corp")
      new_organization :=
        { org_id := str "orgG", org_name := some (str "Acme Corp") } } rfl).1

end Spec2Proof
